import Mathlib

/-!
Shallow embedding of `bulk_create.py`: a GCP bulk-instance provisioning
script.  Pure dictionary-building functions become Lean structures and
functions; the provider client and its network calls are modelled as an
explicit behaviour record, and the poll loop as a function over the finite
trace of query results the provider returns.  Python `int` CLI arguments
are `Int`; optional string arguments are `Option String`; Python
truthiness of an optional string (`if opts.policy:`) is the `truthy`
predicate below.
-/

/-- Instance role tag, mirroring `class OBInstType(Enum)` with
`SERVER = 1`, `CLIENT = 2`. -/
inductive OBInstType where
  | SERVER
  | CLIENT
deriving DecidableEq, Repr

/-- Raw parsed command-line arguments, mirroring the `args` namespace
produced by `initialize_parser()`: `type=int` flags are `Int`, flags with
`default=None` are `Option String`, `action="store_true"` is `Bool`,
`action="append"` is `List String`. -/
structure Args where
  project : String
  region : String
  zone : String
  image : String
  scopes : List String
  subnet : Option String
  policy : Option String
  nic_type : Option String
  enable_tier1_networking : Bool
  num_servers : Int
  num_clients : Int
  server_type : String
  client_type : String
  server_prefix_ : String
  client_prefix_ : String
  num_ssd_per_server : Int
deriving DecidableEq, Repr

/-- The `self.server` dictionary of `OBOptions`. -/
structure ServerGroup where
  count : Int
  type : String
  prefix_ : String
  num_ssd_per : Int
deriving DecidableEq, Repr

/-- The `self.client` dictionary of `OBOptions`. -/
structure ClientGroup where
  count : Int
  type : String
  prefix_ : String
deriving DecidableEq, Repr

/-- Normalized configuration, mirroring the fields set by
`OBOptions.__init__`. -/
structure OBOptions where
  project : String
  region : String
  zone : String
  image : String
  scopes : List String
  subnet : Option String
  policy : Option String
  nic_type : Option String
  enable_tier1_networking : Bool
  server : ServerGroup
  client : ClientGroup
deriving DecidableEq, Repr

/-- Python truthiness of an optional string value: `None` and `""` are
falsy, every other string is truthy. -/
def truthy : Option String → Bool
  | none => false
  | some s => s ≠ ""

/-- `OBOptions.__init__(args)`.  Returns the constructed options together
with a flag recording whether the NIC-override warning was printed.  The
source prints the warning and forces `nic_type` to `"GVNIC"` exactly when
`args.enable_tier1_networking and args.nic_type != "GVNIC"`; note that in
Python `None != "GVNIC"` and `"" != "GVNIC"` both hold, so the unset NIC
case is also overridden (with the warning). -/
def OBOptions.init (args : Args) : OBOptions × Bool :=
  let overrideNic := args.enable_tier1_networking && args.nic_type ≠ some "GVNIC"
  ({ project := args.project
     region := args.region
     zone := args.zone
     image := "global/images/" ++ args.image
     scopes := args.scopes.map (fun item => "https://www.googleapis.com/auth/" ++ item)
     subnet := if truthy args.subnet then
         some ("regions/" ++ args.region ++ "/subnetworks/" ++ (args.subnet.getD ""))
       else none
     policy := args.policy
     nic_type := if overrideNic then some "GVNIC" else args.nic_type
     enable_tier1_networking := args.enable_tier1_networking
     server := { count := args.num_servers
                 type := args.server_type
                 prefix_ := args.server_prefix_
                 num_ssd_per := args.num_ssd_per_server }
     client := { count := args.num_clients
                 type := args.client_type
                 prefix_ := args.client_prefix_ } },
   overrideNic)

/-- One entry of the `accessConfigs` list of a network interface. -/
structure AccessConfig where
  type : String
  name : String
  networkTier : String
deriving DecidableEq, Repr

/-- The dictionary built by `setup_network_interface`; `none` models an
absent key. -/
structure NetworkInterface where
  accessConfigs : List AccessConfig
  subnetwork : Option String
  nicType : Option String
deriving DecidableEq, Repr

/-- `setup_network_interface(opts)`. -/
def setup_network_interface (opts : OBOptions) : NetworkInterface :=
  { accessConfigs := [{ type := "ONE_TO_ONE_NAT"
                        name := "External NAT"
                        networkTier := "PREMIUM" }]
    subnetwork := if truthy opts.subnet then opts.subnet else none
    nicType := if truthy opts.nic_type then opts.nic_type else none }

/-- One entry of a disk's `guestOsFeatures` list. -/
structure GuestOsFeature where
  type : String
deriving DecidableEq, Repr

/-- The `initializeParams` sub-dictionary of a disk; the boot disk sets
`sourceImage`, a scratch disk sets `diskType`. -/
structure InitParams where
  sourceImage : Option String := none
  diskType : Option String := none
deriving DecidableEq, Repr

/-- A disk dictionary as built by `setup_disks`; `none` models an absent
key. -/
structure Disk where
  type : String
  boot : Option String := none
  initializeParams : InitParams
  autoDelete : String
  guestOsFeatures : Option (List GuestOsFeature) := none
  interface : Option String := none
deriving DecidableEq, Repr

/-- The `boot_disk` dictionary local to `setup_disks`, after the optional
`guestOsFeatures` mutation guarded by `opts.nic_type == "GVNIC"`. -/
def boot_disk (opts : OBOptions) : Disk :=
  { type := "PERSISTENT"
    boot := some "true"
    initializeParams := { sourceImage := some opts.image }
    autoDelete := "true"
    guestOsFeatures :=
      if opts.nic_type = some "GVNIC" then some [{ type := "GVNIC" }] else none }

/-- The `local_disk` dictionary local to `setup_disks`. -/
def local_disk : Disk :=
  { type := "SCRATCH"
    initializeParams := { diskType := some "local-ssd" }
    autoDelete := "true"
    interface := some "NVME" }

/-- `setup_disks(opts, is_server)`.  Python's `[local_disk] * n` for an
`int` `n` is `List.replicate n.toNat local_disk`. -/
def setup_disks (opts : OBOptions) (is_server : Bool) : List Disk :=
  let disks := [boot_disk opts]
  if is_server && opts.server.num_ssd_per > 0 then
    disks ++ List.replicate opts.server.num_ssd_per.toNat local_disk
  else
    disks

/-- One entry of the `serviceAccounts` list. -/
structure ServiceAccount where
  scopes : List String
deriving DecidableEq, Repr

/-- The `scheduling` sub-dictionary attached when a resource policy is
set. -/
structure Scheduling where
  onHostMaintenance : String
  automaticRestart : String
deriving DecidableEq, Repr

/-- The `networkPerformanceConfig` sub-dictionary attached for Tier 1
networking. -/
structure NetworkPerformanceConfig where
  totalEgressBandwidthTier : String
deriving DecidableEq, Repr

/-- The dictionary built by `setup_instance_properties`; `none` models an
absent key. -/
structure InstanceProperties where
  networkInterfaces : List NetworkInterface
  disks : List Disk
  serviceAccounts : List ServiceAccount
  machineType : String
  resourcePolicies : Option (List String) := none
  scheduling : Option Scheduling := none
  networkPerformanceConfig : Option NetworkPerformanceConfig := none
deriving DecidableEq, Repr

/-- `setup_instance_properties(opts, is_server, net_int, disks)`.  The
policy block is guarded by Python truthiness `if opts.policy:`, the tier-1
block by `if opts.enable_tier1_networking:`. -/
def setup_instance_properties (opts : OBOptions) (is_server : Bool)
    (net_int : NetworkInterface) (disks : List Disk) : InstanceProperties :=
  { networkInterfaces := [net_int]
    disks := disks
    serviceAccounts := [{ scopes := opts.scopes }]
    machineType := if is_server then opts.server.type else opts.client.type
    resourcePolicies :=
      if truthy opts.policy then some [opts.policy.getD ""] else none
    scheduling :=
      if truthy opts.policy then
        some { onHostMaintenance := "TERMINATE", automaticRestart := "false" }
      else none
    networkPerformanceConfig :=
      if opts.enable_tier1_networking then
        some { totalEgressBandwidthTier := "TIER_1" }
      else none }

/-- A provider operation resource as returned by submission and by the
zone-operations `wait` query: `{operationType, name, status, error?}`.
The error payload type `α` is abstract, since the code never inspects it
(it passes `result['error']` through unmodified). -/
structure Operation (α : Type) where
  operationType : String
  name : String
  status : String
  error : Option α
deriving DecidableEq, Repr

/-- `wait_for_operation(compute, operation, opts)`, modelled over the
finite trace of successive results the provider's blocking `wait` query
returns.  The first component is the list of query results the loop
actually consumed (one per issued query); the second is `none` while the
trace is exhausted without a `DONE` status (the loop is still running and
would issue another query), `some (Except.error e)` when the first `DONE`
result carries `error = e` (the source raises `Exception(result['error'])`),
and `some (Except.ok result)` when the first `DONE` result carries no
error (the source returns `result`). -/
def wait_for_operation {α : Type} :
    List (Operation α) → List (Operation α) × Option (Except α (Operation α))
  | [] => ([], none)
  | result :: rest =>
    if result.status = "DONE" then
      ([result],
       some (match result.error with
             | some e => Except.error e
             | none => Except.ok result))
    else
      let w := wait_for_operation rest
      (result :: w.1, w.2)

/-- The `body` dictionary submitted to `instances().bulkInsert`. -/
structure Body where
  count : Int
  namePattern : String
  instanceProperties : InstanceProperties
deriving DecidableEq, Repr

/-- The provider client (`compute`), modelled by its observable behaviour:
`bulkInsert(...).execute()` either raises an `HttpError` whose structured
message is the `String` (modelled `Except.error`), or returns an operation
handle; each subsequent `zoneOperations().wait(...)` for that role returns
the next element of `pollTrace`. -/
structure ProviderBehavior (α : Type) where
  submitResult : OBInstType → Except String (Operation α)
  pollTrace : OBInstType → Operation α → List (Operation α)

/-- Observable events of one invocation, in program order. -/
inductive Event (α : Type) where
  | verifyCalled (ok : Bool)
  | normalized (opts : OBOptions)
  | builtDisks (t : OBInstType) (disks : List Disk)
  | builtProps (t : OBInstType) (props : InstanceProperties)
  | submitted (t : OBInstType) (body : Body)
  | polled (t : OBInstType) (result : Operation α)
deriving DecidableEq, Repr

/-- The role an event belongs to, if any. -/
def eventRole {α : Type} : Event α → Option OBInstType
  | .verifyCalled _ => none
  | .normalized _ => none
  | .builtDisks t _ => some t
  | .builtProps t _ => some t
  | .submitted t _ => some t
  | .polled t _ => some t

/-- Whether an event is a bulk-creation submission for role `t`. -/
def isSubmitFor {α : Type} (t : OBInstType) : Event α → Bool
  | .submitted t' _ => t = t'
  | _ => false

/-- Terminal outcome of one invocation. -/
inductive Outcome (α : Type) where
  | ok
  | configError (msg : String)
  | validationFailed
  | credsError
  | submitError (msg : String)
  | opFailed (e : α)
  | polling
deriving DecidableEq, Repr

/-- `create_instances(compute, opts, network_interface, inst_type)`:
builds the disks, instance properties and request body for the role, then
submits.  A synchronous `HttpError` prints the provider's structured
message and calls `sys.exit(1)` (`Outcome.submitError`); otherwise the
returned operation is handed to `wait_for_operation`, whose raised
`Exception(result['error'])` propagates as `Outcome.opFailed`.  The event
list records, in order, what the call built, submitted and polled. -/
def create_instances {α : Type} (behavior : ProviderBehavior α) (opts : OBOptions)
    (network_interface : NetworkInterface) (inst_type : OBInstType) :
    List (Event α) × Outcome α :=
  let is_server := inst_type = OBInstType.SERVER
  let count := if is_server then opts.server.count else opts.client.count
  let name_pattern :=
    if is_server then opts.server.prefix_ ++ "##" else opts.client.prefix_ ++ "##"
  let disks := setup_disks opts is_server
  let instance_properties :=
    setup_instance_properties opts is_server network_interface disks
  let body : Body :=
    { count := count, namePattern := name_pattern
      instanceProperties := instance_properties }
  let built : List (Event α) :=
    [Event.builtDisks inst_type disks,
     Event.builtProps inst_type instance_properties,
     Event.submitted inst_type body]
  match behavior.submitResult inst_type with
  | Except.error msg => (built, Outcome.submitError msg)
  | Except.ok operation =>
    let w := wait_for_operation (behavior.pollTrace inst_type operation)
    (built ++ w.1.map (Event.polled inst_type),
     match w.2 with
     | none => Outcome.polling
     | some (Except.error e) => Outcome.opFailed e
     | some (Except.ok _) => Outcome.ok)

/-- The `if __name__ == "__main__":` block.  `verify_ok` is the result of
`verify_inputs(args)` (an external-collaborator existence check) and
`creds_ok` whether `googleapiclient.discovery.build` succeeds.  The zero
total-instance check runs first; then validation; then `OBOptions` is
constructed; then credentials; then the server-role flow runs only when
`args.num_servers > 0` and, only if it returned normally, the client-role
flow runs only when `args.num_clients > 0`.  A `sys.exit(1)` or an
uncaught `Exception` from the server flow prevents the client flow. -/
def main_run {α : Type} (behavior : ProviderBehavior α) (args : Args)
    (verify_ok creds_ok : Bool) : List (Event α) × Outcome α :=
  if args.num_servers + args.num_clients < 1 then
    ([], Outcome.configError "Must specify at least one server or client.")
  else if verify_ok = false then
    ([Event.verifyCalled false], Outcome.validationFailed)
  else
    let ob := OBOptions.init args
    let ob_opts := ob.1
    if creds_ok = false then
      ([Event.verifyCalled true, Event.normalized ob_opts], Outcome.credsError)
    else
      let net_int := setup_network_interface ob_opts
      let pre : List (Event α) := [Event.verifyCalled true, Event.normalized ob_opts]
      if 0 < args.num_servers then
        let sres := create_instances behavior ob_opts net_int OBInstType.SERVER
        match sres.2 with
        | Outcome.ok =>
          if 0 < args.num_clients then
            let cres := create_instances behavior ob_opts net_int OBInstType.CLIENT
            (pre ++ sres.1 ++ cres.1, cres.2)
          else
            (pre ++ sres.1, Outcome.ok)
        | out => (pre ++ sres.1, out)
      else
        if 0 < args.num_clients then
          let cres := create_instances behavior ob_opts net_int OBInstType.CLIENT
          (pre ++ cres.1, cres.2)
        else
          (pre, Outcome.ok)

/-- If the poll loop produced a result, some consumed query result had
status `DONE`. -/
theorem wait_done_of_some {α : Type} (trace : List (Operation α))
    (res : Except α (Operation α))
    (h : (wait_for_operation trace).2 = some res) :
    ∃ r ∈ (wait_for_operation trace).1, r.status = "DONE" := by
  induction trace with
  | nil => simp [wait_for_operation] at h
  | cons a rest ih =>
    by_cases ha : a.status = "DONE"
    · exact ⟨a, by simp [wait_for_operation, ha], ha⟩
    · simp only [wait_for_operation, if_neg ha] at h ⊢
      obtain ⟨r, hr, hrs⟩ := ih h
      exact ⟨r, List.mem_cons_of_mem a hr, hrs⟩

/-- A trace of exclusively non-`DONE` query results is consumed whole and
the loop is still running. -/
theorem wait_all_pending {α : Type} (trace : List (Operation α))
    (h : ∀ r ∈ trace, r.status ≠ "DONE") :
    wait_for_operation trace = (trace, none) := by
  induction trace with
  | nil => rfl
  | cons a rest ih =>
    have ha : a.status ≠ "DONE" := h a (List.mem_cons_self a rest)
    have hrest : wait_for_operation rest = (rest, none) :=
      ih (fun r hr => h r (List.mem_cons_of_mem a hr))
    simp only [wait_for_operation, if_neg ha, hrest]

/-- The poll loop's result is determined by the first `DONE` element of
the trace: an error payload is re-raised verbatim, otherwise the operation
is returned. -/
theorem wait_find_done {α : Type} (trace : List (Operation α)) (r : Operation α)
    (h : trace.find? (fun x => x.status == "DONE") = some r) :
    (wait_for_operation trace).2 =
      some (match r.error with
            | some e => Except.error e
            | none => Except.ok r) := by
  induction trace with
  | nil => simp at h
  | cons a rest ih =>
    by_cases ha : a.status = "DONE"
    · have hfind : (a :: rest).find? (fun x => x.status == "DONE") = some a :=
        List.find?_cons_of_pos _ (by simpa using ha)
      rw [hfind] at h
      cases h
      simp [wait_for_operation, ha]
    · rw [List.find?_cons_of_neg _ (by simpa using ha)] at h
      simp only [wait_for_operation, if_neg ha]
      exact ih h

/-- C1: `wait_for_operation` returns or fails only after a wait-query has
returned an operation with status `DONE` at least once; as long as every
query result is non-`DONE` it consumes all of them and keeps polling —
there is no premature success and no other exit from the loop. -/
theorem wait_for_operation_exits_only_on_done {α : Type}
    (trace : List (Operation α)) :
    (∀ res, (wait_for_operation trace).2 = some res →
       ∃ r ∈ (wait_for_operation trace).1, r.status = "DONE") ∧
    ((∀ r ∈ trace, r.status ≠ "DONE") →
       wait_for_operation trace = (trace, none)) :=
  ⟨fun res h => wait_done_of_some trace res h,
   fun h => wait_all_pending trace h⟩

/-- A sample non-terminal operation poll result. -/
def pendingOp : Operation String :=
  { operationType := "bulkInsert", name := "op-1", status := "RUNNING", error := none }

/-- A sample terminal successful operation. -/
def doneOp : Operation String :=
  { operationType := "bulkInsert", name := "op-1", status := "DONE", error := none }

/-- A sample terminal failed operation carrying an error payload. -/
def failOp : Operation String :=
  { operationType := "bulkInsert", name := "op-1", status := "DONE"
    error := some "QUOTA_EXCEEDED" }

theorem wait_for_operation_exits_only_on_done_witness :
    (∀ r ∈ [pendingOp, pendingOp], r.status ≠ "DONE") ∧
    wait_for_operation [pendingOp, pendingOp] = ([pendingOp, pendingOp], none) :=
  ⟨by decide,
   (wait_for_operation_exits_only_on_done [pendingOp, pendingOp]).2 (by decide)⟩

/-- C2: when the first `DONE` query result carries an error payload, the
poller fails with exactly that payload (`Exception(result['error'])`,
unmodified); when it carries none, the poller returns success (the
operation itself). -/
theorem wait_for_operation_done_round_trip {α : Type}
    (trace : List (Operation α)) (r : Operation α)
    (h : trace.find? (fun x => x.status == "DONE") = some r) :
    (∀ e, r.error = some e →
       (wait_for_operation trace).2 = some (Except.error e)) ∧
    (r.error = none →
       (wait_for_operation trace).2 = some (Except.ok r)) := by
  refine ⟨fun e he => ?_, fun he => ?_⟩
  · have hw := wait_find_done trace r h
    rw [he] at hw
    exact hw
  · have hw := wait_find_done trace r h
    rw [he] at hw
    exact hw

theorem wait_for_operation_done_round_trip_witness :
    [pendingOp, failOp].find? (fun x => x.status == "DONE") = some failOp ∧
    failOp.error = some "QUOTA_EXCEEDED" ∧
    (wait_for_operation [pendingOp, failOp]).2 =
      some (Except.error "QUOTA_EXCEEDED") :=
  ⟨by decide, by decide,
   (wait_for_operation_done_round_trip [pendingOp, failOp] failOp
      (by decide)).1 "QUOTA_EXCEEDED" (by decide)⟩

/-- C3: whenever tier-1 networking is enabled — NIC type unset, already
`"GVNIC"`, or an explicit different value — the normalized `nic_type` is
`"GVNIC"`, and `OBOptions.init` is total (it never fails on this
conflict). -/
theorem tier1_forces_gvnic (args : Args)
    (h : args.enable_tier1_networking = true) :
    ((OBOptions.init args).1).nic_type = some "GVNIC" := by
  by_cases hn : args.nic_type = some "GVNIC" <;>
    simp [OBOptions.init, h, hn]

/-- Sample raw arguments: tier-1 enabled together with an explicit
non-`GVNIC` NIC type. -/
def argsTier1 : Args :=
  { project := "p", region := "r", zone := "z", image := "img"
    scopes := ["compute"], subnet := none, policy := none
    nic_type := some "VIRTIO_NET", enable_tier1_networking := true
    num_servers := 1, num_clients := 1, server_type := "n2-standard-4"
    client_type := "n2-standard-2", server_prefix_ := "srv"
    client_prefix_ := "cli", num_ssd_per_server := 0 }

theorem tier1_forces_gvnic_witness :
    argsTier1.enable_tier1_networking = true ∧
    ((OBOptions.init argsTier1).1).nic_type = some "GVNIC" :=
  ⟨by decide, tier1_forces_gvnic argsTier1 (by decide)⟩

/-- `setup_disks` in closed form: one boot disk followed by the scratch
disks (none unless building for the server role with a positive SSD
count). -/
theorem setup_disks_eq (opts : OBOptions) (is_server : Bool) :
    setup_disks opts is_server =
      boot_disk opts ::
        List.replicate (if is_server then opts.server.num_ssd_per.toNat else 0)
          local_disk := by
  cases is_server with
  | false => simp [setup_disks]
  | true =>
    by_cases hs : opts.server.num_ssd_per > 0
    · simp [setup_disks, hs]
    · have h0 : opts.server.num_ssd_per.toNat = 0 :=
        Int.toNat_of_nonpos (by omega)
      simp [setup_disks, hs, h0]

/-- C4: for every configuration (with the data model's non-negative SSD
count) and role, the disk list starts with the single boot disk
(persistent, auto-delete, sourced from the configuration's image), and is
followed by exactly `serverGroup.num_ssd_per` identical scratch disks for
the server role and none for the client role. -/
theorem setup_disks_role_isolation (opts : OBOptions) (is_server : Bool)
    (h : 0 ≤ opts.server.num_ssd_per) :
    setup_disks opts is_server =
      boot_disk opts ::
        List.replicate (if is_server then opts.server.num_ssd_per.toNat else 0)
          local_disk ∧
    (boot_disk opts).type = "PERSISTENT" ∧
    (boot_disk opts).autoDelete = "true" ∧
    (boot_disk opts).boot = some "true" ∧
    (boot_disk opts).initializeParams.sourceImage = some opts.image ∧
    ((setup_disks opts true).length : Int) = 1 + opts.server.num_ssd_per ∧
    (setup_disks opts false).length = 1 := by
  have htrue : (setup_disks opts true).length =
      1 + opts.server.num_ssd_per.toNat := by
    rw [setup_disks_eq]
    simp [Nat.add_comm]
  have hfalse : (setup_disks opts false).length = 1 := by
    rw [setup_disks_eq]
    simp
  exact ⟨setup_disks_eq opts is_server, rfl, rfl, rfl, rfl, by omega, hfalse⟩

/-- Sample configuration with two local SSDs per server. -/
def optsSsd2 : OBOptions :=
  { project := "p", region := "r", zone := "z", image := "global/images/img"
    scopes := ["https://www.googleapis.com/auth/compute"]
    subnet := none, policy := none, nic_type := none
    enable_tier1_networking := false
    server := { count := 1, type := "n2-standard-4", prefix_ := "srv"
                num_ssd_per := 2 }
    client := { count := 1, type := "n2-standard-2", prefix_ := "cli" } }

theorem setup_disks_role_isolation_witness :
    0 ≤ optsSsd2.server.num_ssd_per ∧
    ((setup_disks optsSsd2 true).length : Int) = 1 + optsSsd2.server.num_ssd_per :=
  ⟨by decide, (setup_disks_role_isolation optsSsd2 true (by decide)).2.2.2.2.2.1⟩

/-- Sample raw arguments: tier-1 enabled with the NIC type left unset. -/
def argsNicUnset : Args :=
  { project := "p", region := "r", zone := "z", image := "img"
    scopes := ["compute"], subnet := none, policy := none
    nic_type := none, enable_tier1_networking := true
    num_servers := 1, num_clients := 1, server_type := "n2-standard-4"
    client_type := "n2-standard-2", server_prefix_ := "srv"
    client_prefix_ := "cli", num_ssd_per_server := 0 }

/-- C6 counterexample: with `nic_type` unset (`None`) and tier-1
networking enabled, the normalizer does emit the NIC-override warning
(`None != "GVNIC"` holds in Python), contradicting the claim that no
warning is emitted in this case. -/
theorem nic_unset_tier1_warns :
    argsNicUnset.nic_type = none ∧
    argsNicUnset.enable_tier1_networking = true ∧
    (OBOptions.init argsNicUnset).2 = true :=
  ⟨rfl, rfl, by decide⟩

/-- C6 (amended): the normalizer emits the NIC-override warning exactly
when tier-1 networking is enabled and the requested NIC type — unset or
explicit — is not already `"GVNIC"`; the warning accompanies every forced
assignment of `"GVNIC"`. -/
theorem nic_warning_iff_override (args : Args) :
    (OBOptions.init args).2 = true ↔
      args.enable_tier1_networking = true ∧ args.nic_type ≠ some "GVNIC" := by
  simp [OBOptions.init]

/-- Sample configuration whose policy is the empty string (a user passed
`--policy ""`): present, but falsy in Python. -/
def optsEmptyPolicy : OBOptions :=
  { project := "p", region := "r", zone := "z", image := "global/images/img"
    scopes := ["https://www.googleapis.com/auth/compute"]
    subnet := none, policy := some "", nic_type := none
    enable_tier1_networking := false
    server := { count := 1, type := "n2-standard-4", prefix_ := "srv"
                num_ssd_per := 0 }
    client := { count := 1, type := "n2-standard-2", prefix_ := "cli" } }

/-- C7 counterexample: with `policy` set to the empty string the
configuration's `resourcePolicies`/`scheduling` blocks are not attached
even though `resourcePolicy` is set (present), because the source guards
them with Python truthiness (`if opts.policy:`). -/
theorem empty_policy_attaches_no_scheduling :
    optsEmptyPolicy.policy ≠ none ∧
    (setup_instance_properties optsEmptyPolicy true
        (setup_network_interface optsEmptyPolicy)
        (setup_disks optsEmptyPolicy true)).resourcePolicies = none ∧
    (setup_instance_properties optsEmptyPolicy true
        (setup_network_interface optsEmptyPolicy)
        (setup_disks optsEmptyPolicy true)).scheduling = none :=
  ⟨by decide, by decide, by decide⟩

/-- C7 (amended): for every configuration, role, network interface and
disk list, `setup_instance_properties` attaches the resource-policy list
together with the forced scheduling block
(`onHostMaintenance = TERMINATE`, `automaticRestart = false`) precisely
when `policy` is set to a non-empty value (Python truthiness), attaches
the `TIER_1` network-performance block precisely when tier-1 networking is
enabled, and is deterministic: the same inputs yield structurally
identical output. -/
theorem instance_properties_conditional_blocks (opts : OBOptions)
    (is_server : Bool) (net_int : NetworkInterface) (disks : List Disk) :
    (truthy opts.policy = true →
       (setup_instance_properties opts is_server net_int disks).resourcePolicies =
           some [opts.policy.getD ""] ∧
       (setup_instance_properties opts is_server net_int disks).scheduling =
           some { onHostMaintenance := "TERMINATE", automaticRestart := "false" }) ∧
    (truthy opts.policy = false →
       (setup_instance_properties opts is_server net_int disks).resourcePolicies =
           none ∧
       (setup_instance_properties opts is_server net_int disks).scheduling = none) ∧
    (opts.enable_tier1_networking = true →
       (setup_instance_properties opts is_server net_int disks).networkPerformanceConfig =
           some { totalEgressBandwidthTier := "TIER_1" }) ∧
    (opts.enable_tier1_networking = false →
       (setup_instance_properties opts is_server net_int disks).networkPerformanceConfig =
           none) ∧
    setup_instance_properties opts is_server net_int disks =
      setup_instance_properties opts is_server net_int disks := by
  refine ⟨fun hp => ?_, fun hp => ?_, fun ht => ?_, fun ht => ?_, rfl⟩
  · simp [setup_instance_properties, hp]
  · simp [setup_instance_properties, hp]
  · simp [setup_instance_properties, ht]
  · simp [setup_instance_properties, ht]

/-- Sample configuration with a non-empty policy and tier-1 networking. -/
def optsPolicyTier1 : OBOptions :=
  { project := "p", region := "r", zone := "z", image := "global/images/img"
    scopes := ["https://www.googleapis.com/auth/compute"]
    subnet := none, policy := some "placement-group", nic_type := some "GVNIC"
    enable_tier1_networking := true
    server := { count := 1, type := "n2-standard-4", prefix_ := "srv"
                num_ssd_per := 0 }
    client := { count := 1, type := "n2-standard-2", prefix_ := "cli" } }

theorem instance_properties_conditional_blocks_witness :
    truthy optsPolicyTier1.policy = true ∧
    (setup_instance_properties optsPolicyTier1 true
        (setup_network_interface optsPolicyTier1)
        (setup_disks optsPolicyTier1 true)).resourcePolicies =
      some ["placement-group"] :=
  ⟨by decide,
   ((instance_properties_conditional_blocks optsPolicyTier1 true
       (setup_network_interface optsPolicyTier1)
       (setup_disks optsPolicyTier1 true)).1 (by decide)).1⟩

/-- Every event recorded by `create_instances` belongs to the role it was
invoked for. -/
theorem create_instances_role {α : Type} (behavior : ProviderBehavior α)
    (opts : OBOptions) (ni : NetworkInterface) (t : OBInstType) :
    ∀ e ∈ (create_instances behavior opts ni t).1, eventRole e = some t := by
  intro e he
  cases hsub : behavior.submitResult t with
  | error msg =>
    simp [create_instances, hsub] at he
    rcases he with h | h | h <;> subst h <;> rfl
  | ok operation =>
    simp [create_instances, hsub] at he
    rcases he with h | h | h | ⟨r, hr, h⟩ <;> subst h <;> rfl

/-- If `create_instances` returned normally, one of its poll events
observed status `DONE`. -/
theorem create_instances_ok_done {α : Type} (behavior : ProviderBehavior α)
    (opts : OBOptions) (ni : NetworkInterface) (t : OBInstType)
    (hok : (create_instances behavior opts ni t).2 = Outcome.ok) :
    ∃ r, Event.polled t r ∈ (create_instances behavior opts ni t).1 ∧
      r.status = "DONE" := by
  cases hsub : behavior.submitResult t with
  | error msg => simp [create_instances, hsub] at hok
  | ok operation =>
    cases hw : (wait_for_operation (behavior.pollTrace t operation)).2 with
    | none => simp [create_instances, hsub, hw] at hok
    | some res =>
      obtain ⟨r, hr, hrs⟩ :=
        wait_done_of_some (behavior.pollTrace t operation) res hw
      refine ⟨r, ?_, hrs⟩
      simp only [create_instances, hsub, List.mem_append, List.mem_map]
      exact Or.inr ⟨r, hr, rfl⟩

/-- If `create_instances` hit a synchronous provider rejection, its
outcome carries the provider's message and no poll was issued. -/
theorem create_instances_submit_error {α : Type} (behavior : ProviderBehavior α)
    (opts : OBOptions) (ni : NetworkInterface) (t : OBInstType) (msg : String)
    (hsub : behavior.submitResult t = Except.error msg) :
    (create_instances behavior opts ni t).2 = Outcome.submitError msg := by
  simp [create_instances, hsub]

/-- The first of the branch equations for `main_run`: the zero-instance
guard fires before anything else. -/
theorem main_run_eq_zero {α : Type} (behavior : ProviderBehavior α) (args : Args)
    (v c : Bool) (h : args.num_servers + args.num_clients < 1) :
    main_run behavior args v c =
      ([], Outcome.configError "Must specify at least one server or client.") := by
  simp [main_run, h]

/-- Branch equation: failed input validation. -/
theorem main_run_eq_verify {α : Type} (behavior : ProviderBehavior α) (args : Args)
    (c : Bool) (h : ¬ args.num_servers + args.num_clients < 1) :
    main_run behavior args false c =
      ([Event.verifyCalled false], Outcome.validationFailed) := by
  simp [main_run, h]

/-- Branch equation: missing credentials. -/
theorem main_run_eq_creds {α : Type} (behavior : ProviderBehavior α) (args : Args)
    (h : ¬ args.num_servers + args.num_clients < 1) :
    main_run behavior args true false =
      ([Event.verifyCalled true, Event.normalized (OBOptions.init args).1],
       Outcome.credsError) := by
  simp [main_run, h]

/-- Branch equation: server flow runs and returns normally, then the
client flow runs. -/
theorem main_run_eq_both {α : Type} (behavior : ProviderBehavior α) (args : Args)
    (h : ¬ args.num_servers + args.num_clients < 1)
    (hs : 0 < args.num_servers) (hc : 0 < args.num_clients)
    (hok : (create_instances behavior (OBOptions.init args).1
        (setup_network_interface (OBOptions.init args).1)
        OBInstType.SERVER).2 = Outcome.ok) :
    main_run behavior args true true =
      ([Event.verifyCalled true, Event.normalized (OBOptions.init args).1] ++
        (create_instances behavior (OBOptions.init args).1
          (setup_network_interface (OBOptions.init args).1) OBInstType.SERVER).1 ++
        (create_instances behavior (OBOptions.init args).1
          (setup_network_interface (OBOptions.init args).1) OBInstType.CLIENT).1,
       (create_instances behavior (OBOptions.init args).1
          (setup_network_interface (OBOptions.init args).1) OBInstType.CLIENT).2) := by
  simp [main_run, h, hs, hc, hok]

/-- Branch equation: server flow runs and returns normally, no client
instances requested. -/
theorem main_run_eq_server_only {α : Type} (behavior : ProviderBehavior α)
    (args : Args) (h : ¬ args.num_servers + args.num_clients < 1)
    (hs : 0 < args.num_servers) (hc : ¬ 0 < args.num_clients)
    (hok : (create_instances behavior (OBOptions.init args).1
        (setup_network_interface (OBOptions.init args).1)
        OBInstType.SERVER).2 = Outcome.ok) :
    main_run behavior args true true =
      ([Event.verifyCalled true, Event.normalized (OBOptions.init args).1] ++
        (create_instances behavior (OBOptions.init args).1
          (setup_network_interface (OBOptions.init args).1) OBInstType.SERVER).1,
       Outcome.ok) := by
  simp [main_run, h, hs, hc, hok]

/-- Branch equation: the server flow halts (synchronous rejection, failed
operation, or still polling), so the client flow never starts. -/
theorem main_run_eq_server_halt {α : Type} (behavior : ProviderBehavior α)
    (args : Args) (h : ¬ args.num_servers + args.num_clients < 1)
    (hs : 0 < args.num_servers)
    (hne : (create_instances behavior (OBOptions.init args).1
        (setup_network_interface (OBOptions.init args).1)
        OBInstType.SERVER).2 ≠ Outcome.ok) :
    main_run behavior args true true =
      ([Event.verifyCalled true, Event.normalized (OBOptions.init args).1] ++
        (create_instances behavior (OBOptions.init args).1
          (setup_network_interface (OBOptions.init args).1) OBInstType.SERVER).1,
       (create_instances behavior (OBOptions.init args).1
          (setup_network_interface (OBOptions.init args).1) OBInstType.SERVER).2) := by
  cases hso : (create_instances behavior (OBOptions.init args).1
      (setup_network_interface (OBOptions.init args).1)
      OBInstType.SERVER).2 with
  | ok => exact absurd hso hne
  | configError msg => simp [main_run, h, hs, hso]
  | validationFailed => simp [main_run, h, hs, hso]
  | credsError => simp [main_run, h, hs, hso]
  | submitError msg => simp [main_run, h, hs, hso]
  | opFailed e => simp [main_run, h, hs, hso]
  | polling => simp [main_run, h, hs, hso]

/-- Branch equation: only the client flow runs. -/
theorem main_run_eq_client_only {α : Type} (behavior : ProviderBehavior α)
    (args : Args) (h : ¬ args.num_servers + args.num_clients < 1)
    (hs : ¬ 0 < args.num_servers) (hc : 0 < args.num_clients) :
    main_run behavior args true true =
      ([Event.verifyCalled true, Event.normalized (OBOptions.init args).1] ++
        (create_instances behavior (OBOptions.init args).1
          (setup_network_interface (OBOptions.init args).1) OBInstType.CLIENT).1,
       (create_instances behavior (OBOptions.init args).1
          (setup_network_interface (OBOptions.init args).1) OBInstType.CLIENT).2) := by
  simp [main_run, h, hs, hc]

/-- The events preceding any role flow (validation, normalization) belong
to no role. -/
theorem pre_events_roleless {α : Type} (opts : OBOptions) (b : Bool) :
    ∀ e ∈ ([Event.verifyCalled b, Event.normalized opts] : List (Event α)),
      eventRole e = none := by
  intro e he
  simp at he
  rcases he with h | h <;> subst h <;> rfl

/-- C8: an invocation requesting fewer than one instance in total fails
with the configuration error immediately: the trace is empty, so the
Configuration Normalizer is never constructed and no validation,
submission or poll ever happens. -/
theorem zero_total_instances_fails_first {α : Type}
    (behavior : ProviderBehavior α) (args : Args) (verify_ok creds_ok : Bool)
    (h : args.num_servers + args.num_clients < 1) :
    main_run behavior args verify_ok creds_ok =
      ([], Outcome.configError "Must specify at least one server or client.") :=
  main_run_eq_zero behavior args verify_ok creds_ok h

/-- Sample raw arguments requesting zero servers and zero clients. -/
def argsZero : Args :=
  { project := "p", region := "r", zone := "z", image := "img"
    scopes := ["compute"], subnet := none, policy := none
    nic_type := none, enable_tier1_networking := false
    num_servers := 0, num_clients := 0, server_type := "n2-standard-4"
    client_type := "n2-standard-2", server_prefix_ := "srv"
    client_prefix_ := "cli", num_ssd_per_server := 0 }

/-- A provider that accepts every submission and completes every
operation successfully after one pending poll. -/
def okBehavior : ProviderBehavior String :=
  { submitResult := fun _ => Except.ok pendingOp
    pollTrace := fun _ _ => [pendingOp, doneOp] }

theorem zero_total_instances_fails_first_witness :
    argsZero.num_servers + argsZero.num_clients < 1 ∧
    main_run okBehavior argsZero true true =
      ([], Outcome.configError "Must specify at least one server or client.") :=
  ⟨by decide,
   zero_total_instances_fails_first okBehavior argsZero true true (by decide)⟩

/-- C5: when the provider rejects the server-role bulk submission
synchronously, the invocation halts reporting the provider's structured
message, and no client-role work happens at all — in particular the
client-role request is never submitted. -/
theorem sync_submit_failure_halts {α : Type} (behavior : ProviderBehavior α)
    (args : Args) (msg : String)
    (hs : 0 < args.num_servers) (hc : 0 < args.num_clients)
    (hsub : behavior.submitResult OBInstType.SERVER = Except.error msg) :
    (main_run behavior args true true).2 = Outcome.submitError msg ∧
    ∀ e ∈ (main_run behavior args true true).1,
      eventRole e ≠ some OBInstType.CLIENT := by
  have h : ¬ args.num_servers + args.num_clients < 1 := by omega
  have herr := create_instances_submit_error behavior (OBOptions.init args).1
      (setup_network_interface (OBOptions.init args).1) OBInstType.SERVER msg hsub
  have hne : (create_instances behavior (OBOptions.init args).1
      (setup_network_interface (OBOptions.init args).1)
      OBInstType.SERVER).2 ≠ Outcome.ok := by
    rw [herr]
    intro hcon
    cases hcon
  have hmr := main_run_eq_server_halt behavior args h hs hne
  constructor
  · rw [hmr]
    exact herr
  · intro e he
    rw [hmr] at he
    simp only [List.mem_append] at he
    rcases he with he | he
    · rw [pre_events_roleless (OBOptions.init args).1 true e he]
      simp
    · rw [create_instances_role behavior (OBOptions.init args).1
        (setup_network_interface (OBOptions.init args).1) OBInstType.SERVER e he]
      simp

/-- A provider that rejects the server-role submission synchronously with
a quota message and would accept the client-role one. -/
def quotaBehavior : ProviderBehavior String :=
  { submitResult := fun t =>
      match t with
      | OBInstType.SERVER => Except.error "quota exceeded"
      | OBInstType.CLIENT => Except.ok pendingOp
    pollTrace := fun _ _ => [doneOp] }

theorem sync_submit_failure_halts_witness :
    (0 : Int) < argsTier1.num_servers ∧
    (0 : Int) < argsTier1.num_clients ∧
    quotaBehavior.submitResult OBInstType.SERVER = Except.error "quota exceeded" ∧
    ((main_run quotaBehavior argsTier1 true true).2 =
        Outcome.submitError "quota exceeded" ∧
      ∀ e ∈ (main_run quotaBehavior argsTier1 true true).1,
        eventRole e ≠ some OBInstType.CLIENT) :=
  ⟨by decide, by decide, rfl,
   sync_submit_failure_halts quotaBehavior argsTier1 "quota exceeded"
     (by decide) (by decide) rfl⟩

/-- C9: when both roles are requested, the trace splits into a prefix
with no client-role event followed by a suffix with no server-role event
(the two flows never interleave), and if the client-role request was
submitted at all then the prefix contains a server-role poll that
observed status `DONE`. -/
theorem roles_strictly_sequential {α : Type} (behavior : ProviderBehavior α)
    (args : Args) (verify_ok creds_ok : Bool)
    (hs : 0 < args.num_servers) (hc : 0 < args.num_clients) :
    ∃ l1 l2,
      (main_run behavior args verify_ok creds_ok).1 = l1 ++ l2 ∧
      (∀ e ∈ l1, eventRole e ≠ some OBInstType.CLIENT) ∧
      (∀ e ∈ l2, eventRole e ≠ some OBInstType.SERVER) ∧
      ((∃ e ∈ l2, isSubmitFor OBInstType.CLIENT e = true) →
        ∃ r, Event.polled OBInstType.SERVER r ∈ l1 ∧ r.status = "DONE") := by
  have h : ¬ args.num_servers + args.num_clients < 1 := by omega
  cases verify_ok with
  | false =>
    refine ⟨[Event.verifyCalled false], [], ?_, ?_, ?_, ?_⟩
    · rw [main_run_eq_verify behavior args creds_ok h]
      simp
    · intro e he
      simp at he
      subst he
      simp [eventRole]
    · intro e he
      simp at he
    · intro hex
      simp at hex
  | true =>
    cases creds_ok with
    | false =>
      refine ⟨[Event.verifyCalled true, Event.normalized (OBOptions.init args).1],
        [], ?_, ?_, ?_, ?_⟩
      · rw [main_run_eq_creds behavior args h]
        simp
      · intro e he
        rw [pre_events_roleless (OBOptions.init args).1 true e he]
        simp
      · intro e he
        simp at he
      · intro hex
        simp at hex
    | true =>
      by_cases hok : (create_instances behavior (OBOptions.init args).1
          (setup_network_interface (OBOptions.init args).1)
          OBInstType.SERVER).2 = Outcome.ok
      · refine ⟨[Event.verifyCalled true, Event.normalized (OBOptions.init args).1] ++
          (create_instances behavior (OBOptions.init args).1
            (setup_network_interface (OBOptions.init args).1) OBInstType.SERVER).1,
          (create_instances behavior (OBOptions.init args).1
            (setup_network_interface (OBOptions.init args).1) OBInstType.CLIENT).1,
          ?_, ?_, ?_, ?_⟩
        · rw [main_run_eq_both behavior args h hs hc hok]
        · intro e he
          rcases List.mem_append.mp he with he | he
          · rw [pre_events_roleless (OBOptions.init args).1 true e he]
            simp
          · rw [create_instances_role behavior (OBOptions.init args).1
              (setup_network_interface (OBOptions.init args).1)
              OBInstType.SERVER e he]
            simp
        · intro e he
          rw [create_instances_role behavior (OBOptions.init args).1
            (setup_network_interface (OBOptions.init args).1)
            OBInstType.CLIENT e he]
          simp
        · intro _
          obtain ⟨r, hr, hrs⟩ := create_instances_ok_done behavior
            (OBOptions.init args).1
            (setup_network_interface (OBOptions.init args).1)
            OBInstType.SERVER hok
          exact ⟨r, List.mem_append_right _ hr, hrs⟩
      · refine ⟨[Event.verifyCalled true, Event.normalized (OBOptions.init args).1] ++
          (create_instances behavior (OBOptions.init args).1
            (setup_network_interface (OBOptions.init args).1) OBInstType.SERVER).1,
          [], ?_, ?_, ?_, ?_⟩
        · rw [main_run_eq_server_halt behavior args h hs hok]
          simp
        · intro e he
          rcases List.mem_append.mp he with he | he
          · rw [pre_events_roleless (OBOptions.init args).1 true e he]
            simp
          · rw [create_instances_role behavior (OBOptions.init args).1
              (setup_network_interface (OBOptions.init args).1)
              OBInstType.SERVER e he]
            simp
        · intro e he
          simp at he
        · intro hex
          simp at hex

theorem roles_strictly_sequential_witness :
    (0 : Int) < argsTier1.num_servers ∧
    (0 : Int) < argsTier1.num_clients ∧
    ∃ l1 l2,
      (main_run okBehavior argsTier1 true true).1 = l1 ++ l2 ∧
      (∀ e ∈ l1, eventRole e ≠ some OBInstType.CLIENT) ∧
      (∀ e ∈ l2, eventRole e ≠ some OBInstType.SERVER) ∧
      ((∃ e ∈ l2, isSubmitFor OBInstType.CLIENT e = true) →
        ∃ r, Event.polled OBInstType.SERVER r ∈ l1 ∧ r.status = "DONE") :=
  ⟨by decide, by decide,
   roles_strictly_sequential okBehavior argsTier1 true true (by decide) (by decide)⟩

/-- C10: a role whose requested count is not strictly positive (while the
other role keeps the total at least 1) is skipped entirely: the trace
contains no event of that role — no disk list or instance properties are
built for it, no bulk-creation request (not even a count-0 one) is
submitted for it, and no operation is polled for it. -/
theorem nonpositive_role_skipped {α : Type} (behavior : ProviderBehavior α)
    (args : Args) (verify_ok creds_ok : Bool) :
    (args.num_servers ≤ 0 → 1 ≤ args.num_servers + args.num_clients →
       ∀ e ∈ (main_run behavior args verify_ok creds_ok).1,
         eventRole e ≠ some OBInstType.SERVER) ∧
    (args.num_clients ≤ 0 → 1 ≤ args.num_servers + args.num_clients →
       ∀ e ∈ (main_run behavior args verify_ok creds_ok).1,
         eventRole e ≠ some OBInstType.CLIENT) := by
  constructor
  · intro hs0 hsum e he
    have h : ¬ args.num_servers + args.num_clients < 1 := by omega
    have hs : ¬ 0 < args.num_servers := by omega
    have hc : 0 < args.num_clients := by omega
    cases verify_ok with
    | false =>
      rw [main_run_eq_verify behavior args creds_ok h] at he
      simp at he
      subst he
      simp [eventRole]
    | true =>
      cases creds_ok with
      | false =>
        rw [main_run_eq_creds behavior args h] at he
        rw [pre_events_roleless (OBOptions.init args).1 true e he]
        simp
      | true =>
        rw [main_run_eq_client_only behavior args h hs hc] at he
        rcases List.mem_append.mp he with he | he
        · rw [pre_events_roleless (OBOptions.init args).1 true e he]
          simp
        · rw [create_instances_role behavior (OBOptions.init args).1
            (setup_network_interface (OBOptions.init args).1)
            OBInstType.CLIENT e he]
          simp
  · intro hc0 hsum e he
    have h : ¬ args.num_servers + args.num_clients < 1 := by omega
    have hs : 0 < args.num_servers := by omega
    have hc : ¬ 0 < args.num_clients := by omega
    cases verify_ok with
    | false =>
      rw [main_run_eq_verify behavior args creds_ok h] at he
      simp at he
      subst he
      simp [eventRole]
    | true =>
      cases creds_ok with
      | false =>
        rw [main_run_eq_creds behavior args h] at he
        rw [pre_events_roleless (OBOptions.init args).1 true e he]
        simp
      | true =>
        by_cases hok : (create_instances behavior (OBOptions.init args).1
            (setup_network_interface (OBOptions.init args).1)
            OBInstType.SERVER).2 = Outcome.ok
        · rw [main_run_eq_server_only behavior args h hs hc hok] at he
          rcases List.mem_append.mp he with he | he
          · rw [pre_events_roleless (OBOptions.init args).1 true e he]
            simp
          · rw [create_instances_role behavior (OBOptions.init args).1
              (setup_network_interface (OBOptions.init args).1)
              OBInstType.SERVER e he]
            simp
        · rw [main_run_eq_server_halt behavior args h hs hok] at he
          rcases List.mem_append.mp he with he | he
          · rw [pre_events_roleless (OBOptions.init args).1 true e he]
            simp
          · rw [create_instances_role behavior (OBOptions.init args).1
              (setup_network_interface (OBOptions.init args).1)
              OBInstType.SERVER e he]
            simp

/-- Sample raw arguments requesting zero servers and one client. -/
def argsClientOnly : Args :=
  { project := "p", region := "r", zone := "z", image := "img"
    scopes := ["compute"], subnet := none, policy := none
    nic_type := none, enable_tier1_networking := false
    num_servers := 0, num_clients := 1, server_type := "n2-standard-4"
    client_type := "n2-standard-2", server_prefix_ := "srv"
    client_prefix_ := "cli", num_ssd_per_server := 0 }

theorem nonpositive_role_skipped_witness :
    argsClientOnly.num_servers ≤ 0 ∧
    (1 : Int) ≤ argsClientOnly.num_servers + argsClientOnly.num_clients ∧
    ∀ e ∈ (main_run okBehavior argsClientOnly true true).1,
      eventRole e ≠ some OBInstType.SERVER :=
  ⟨by decide, by decide,
   (nonpositive_role_skipped okBehavior argsClientOnly true true).1
     (by decide) (by decide)⟩
